import Mathlib

/-!
Verification of the easydict sidecar-mock IPC layer.

This file shallowly embeds the two Python components that the claims are
about:
- `src/win32/sidecar_mock/ipc_mock_service.py` — the peer/service: a loop
  over stdin lines, each parsed as JSON, validated and dispatched, producing
  response lines on stdout and structured log lines on stderr;
- `src/sidecar_mock/e2e_client.py` — `SidecarClient`: id generation,
  the pending-request registry (a Python dict), the stdout reader's
  response dispatch, and the timeout path of `send_request`.

JSON values are modelled by the inductive `Json`; `json.loads` itself is
not modelled (it is Python stdlib, not repository code), so a stdin line is
modelled as the raw string together with the parse result (`Option Json`,
`none` when parsing fails).  Numbers are modelled as integers, which covers
every field the claims touch.  Timing (`time.perf_counter`) is modelled by
an explicit `elapsed` argument filling the `timingMs` field.
-/

/-- A JSON value as produced by `json.loads`: null, booleans, numbers
(integral, which suffices for all fields involved here), strings, arrays
and objects.  Objects parsed by Python have unique keys. -/
inductive Json where
  | null : Json
  | bool (b : Bool) : Json
  | num (n : Int) : Json
  | str (s : String) : Json
  | arr (xs : List Json) : Json
  | obj (fields : List (String × Json)) : Json

/-- Python `dict.get(key)`: the value stored under `key`, or `None`
(here `none`) when absent or when the value is not an object. -/
def jget (j : Json) (key : String) : Option Json :=
  match j with
  | Json.obj fields => fields.lookup key
  | _ => none

/-- Python `None`-or-string request id serialized back to JSON: `None`
becomes JSON `null`. -/
def jid : Option String → Json
  | none => Json.null
  | some s => Json.str s

/-- One structured stderr log line, keeping the fields the claims mention
(the timestamp is real time and is not modelled). -/
structure LogEntry where
  level : String
  msg : String
  requestId : Option String

/-- Embeds `error_response` of ipc_mock_service.py: the error envelope
`\x7bid, error: \x7bcode, message\x7d\x7d`. -/
def error_response (request_id : Option String) (code : String) (message : String) : Json :=
  Json.obj [("id", jid request_id),
            ("error", Json.obj [("code", Json.str code), ("message", Json.str message)])]

/-- Embeds `handle_health` of ipc_mock_service.py: the fixed health
result with version, build and the capabilities list. -/
def handle_health (request_id : Option String) : Json :=
  Json.obj [("id", jid request_id),
            ("result", Json.obj
              [("version", Json.str "0.0.1-mock"),
               ("build", Json.str "dev"),
               ("capabilities", Json.arr
                 [Json.str "health", Json.str "translate", Json.str "shutdown"])])]

/-- Python `isinstance(x, str) and x != ""` applied to an optional JSON
value: the string, when the value is present, a string and non-empty. -/
def nonEmptyStr : Option Json → Option String
  | some (Json.str s) => if s = "" then none else some s
  | _ => none

/-- Embeds `handle_translate` of ipc_mock_service.py.  `params.text` is
checked first, then `params.toLang` (each must be a non-empty string, else
`invalid_params`); on success the result carries the tagged translation,
`detectedLang` (the `fromLang` param, JSON null when absent), the constant
engine `"mock"` and the measured `timingMs` (here the `elapsed` argument;
`delayMs` only sleeps and does not affect the response value). -/
def handle_translate (request_id : Option String) (params : Json) (elapsed : Nat) : Json :=
  match nonEmptyStr (jget params "text") with
  | none => error_response request_id "invalid_params" "params.text must be a non-empty string"
  | some text =>
    match nonEmptyStr (jget params "toLang") with
    | none => error_response request_id "invalid_params" "params.toLang must be a non-empty string"
    | some toLang =>
      Json.obj [("id", jid request_id),
                ("result", Json.obj
                  [("translatedText", Json.str ("[" ++ toLang ++ "] " ++ text)),
                   ("detectedLang", (jget params "fromLang").getD Json.null),
                   ("engine", Json.str "mock"),
                   ("timingMs", Json.num (Int.ofNat elapsed))])]

/-- Python `str.strip()` (models the stdlib method): drops leading and
trailing whitespace characters. -/
def pyStrip (s : String) : String :=
  (((s.toList.dropWhile Char.isWhitespace).reverse.dropWhile Char.isWhitespace).reverse).asString

/-- One stdin line as the service sees it: the raw text and the result of
`json.loads` on it (`none` when the line is not valid JSON).  The parse
result is data here because `json.loads` is Python stdlib, not repository
code. -/
structure RawLine where
  raw : String
  parse : Option Json

/-- What processing one stdin line produces: the response lines written to
stdout, the log lines written to stderr, and `some code` when the service
exits (returns from `main`) on this line. -/
structure StepOut where
  responses : List Json
  logs : List LogEntry
  exit : Option Nat

/-- Embeds the id normalization of `main`: `req.get("id")`, reset to
`None` when present but not a string (JSON null decodes to Python `None`
and so also yields `none`). -/
def normId (req : Json) : Option String :=
  match jget req "id" with
  | some (Json.str s) => some s
  | _ => none

/-- Embeds the method validation of `main`: `req.get("method")` must be a
non-empty string. -/
def methodOf (req : Json) : Option String :=
  nonEmptyStr (jget req "method")

/-- Embeds the params validation of `main`: absent (or JSON null, which
decodes to Python `None`) is normalized to the empty object; a present
non-object is rejected (`none`). -/
def paramsOf (req : Json) : Option Json :=
  match jget req "params" with
  | none => some (Json.obj [])
  | some Json.null => some (Json.obj [])
  | some (Json.obj fields) => some (Json.obj fields)
  | some _ => none

/-- Embeds the body of the `for raw_line in sys.stdin` loop of `main` in
ipc_mock_service.py, processing one stdin line: strip and skip blank lines;
parse, else `invalid_json`; validate id, method, params; log the request;
dispatch to health / translate / crash / shutdown / method_not_found. -/
def stepLine (l : RawLine) (elapsed : Nat) : StepOut :=
  if pyStrip l.raw = "" then ⟨[], [], none⟩
  else
    match l.parse with
    | none =>
      ⟨[error_response none "invalid_json" "failed to parse json"],
       [⟨"warn", "invalid json", none⟩], none⟩
    | some req =>
      let request_id := normId req
      match methodOf req with
      | none =>
        ⟨[error_response request_id "invalid_request" "method must be a non-empty string"],
         [], none⟩
      | some method =>
        match paramsOf req with
        | none =>
          ⟨[error_response request_id "invalid_request" "params must be an object"],
           [], none⟩
        | some params =>
          let reqLog : LogEntry := ⟨"info", "request: " ++ method, request_id⟩
          if method = "health" then
            ⟨[handle_health request_id], [reqLog], none⟩
          else if method = "translate" then
            ⟨[handle_translate request_id params elapsed], [reqLog], none⟩
          else if method = "crash" then
            ⟨[], [reqLog, ⟨"error", "crash requested", request_id⟩], some 2⟩
          else if method = "shutdown" then
            ⟨[Json.obj [("id", jid request_id), ("result", Json.obj [("ok", Json.bool true)])],
             ], [reqLog, ⟨"info", "shutdown requested", request_id⟩], some 0⟩
          else
            ⟨[error_response request_id "method_not_found" ("unknown method: " ++ method)],
             [reqLog], none⟩

/-- Embeds the whole `main` loop over a finite stdin: lines are processed
in order until one of them exits the loop (crash/shutdown), whose exit
status is returned; end of input exits with status 0 after a final log.
The startup log line is independent of the input and omitted. -/
def runService (lines : List RawLine) (elapsed : Nat) : List Json × List LogEntry × Nat :=
  match lines with
  | [] => ([], [⟨"info", "stdin closed, exiting", none⟩], 0)
  | l :: rest =>
    let o := stepLine l elapsed
    match o.exit with
    | some code => (o.responses, o.logs, code)
    | none =>
      let (rs, ls, code) := runService rest elapsed
      (o.responses ++ rs, o.logs ++ ls, code)

/-! ### Client side: `SidecarClient` of e2e_client.py -/

/-- The client's pending-request registry `self._pending`: a Python dict
from correlation id to the asyncio future awaiting the response.  Futures
are modelled by opaque numeric tokens.  As a Python dict it has unique
keys, captured by `keysNodup`. -/
abbrev Registry := List (String × Nat)

/-- The Python-dict invariant: every key occurs at most once. -/
def keysNodup (pending : Registry) : Prop := (pending.map Prod.fst).Nodup

/-- Embeds `self._pending[req_id] = future` in `send_request`: dict
assignment, which inserts the key or replaces the value already stored
under it. -/
def registerPending : Registry → String → Nat → Registry
  | [], i, fut => [(i, fut)]
  | (k, v) :: rest, i, fut =>
    if k = i then (i, fut) :: rest else (k, v) :: registerPending rest i fut

/-- Embeds `self._pending.pop(req_id, None)` in the `finally` of
`send_request`: removes the entry for the id, a no-op when absent. -/
def popPending : Registry → String → Registry
  | [], _ => []
  | (k, v) :: rest, i => if k = i then rest else (k, v) :: popPending rest i

/-- Embeds the dispatch step of `_read_stdout`: `req_id = msg.get("id")`,
then `if req_id and req_id in self._pending`, delivering the message to
that future.  A missing, null, empty-string or non-string id never
matches (the dict's keys are strings, so a truthy non-string id fails the
membership test); returns the future the message is delivered to, or
`none` when the message is silently discarded. -/
def readerDispatch (pending : Registry) (msg : Json) : Option Nat :=
  match jget msg "id" with
  | some (Json.str s) => if s = "" then none else pending.lookup s
  | _ => none

/-- How a `send_request` call ends: with the peer's response message, with
the `TimeoutError` raised from `asyncio.TimeoutError`, or with the
`RuntimeError` for a process that is not running. -/
inductive SendResult where
  | response (msg : Json)
  | timedOut
  | notRunning

/-- Embeds the timeout path of `send_request`: `asyncio.wait_for` raised
`asyncio.TimeoutError`, the handler re-raises `TimeoutError`, and the
`finally` block pops the registry entry. -/
def sendOnTimeout (pending : Registry) (req_id : String) : Registry × SendResult :=
  (popPending pending req_id, SendResult.timedOut)

/-- Base-10 digits of `n`, least significant first, with explicit fuel so
that the definition is structurally recursive (the fuel `n` itself always
suffices, see `decAux_eq_digits`). -/
def decAux : Nat → Nat → List Nat
  | 0, _ => []
  | fuel + 1, n => if n = 0 then [] else n % 10 :: decAux fuel (n / 10)

/-- Decimal rendering of a natural number, most significant digit first
(models Python's f-string formatting of `self._request_id`). -/
def natToDec (n : Nat) : String :=
  if n = 0 then "0" else ((decAux n n).reverse.map Nat.digitChar).asString

/-- The id string `_next_id` builds: `f"req-\x7bself._request_id\x7d"`. -/
def mkReqId (n : Nat) : String := "req-" ++ natToDec n

/-- Embeds `_next_id`: increments `self._request_id` and returns the new
counter together with the formatted id. -/
def nextId (request_counter : Nat) : Nat × String :=
  (request_counter + 1, mkReqId (request_counter + 1))

/-- The ids produced by `n` successive `_next_id` calls starting from
counter value `c` (a fresh client session starts at `c = 0`). -/
def genIds : Nat → Nat → List String
  | 0, _ => []
  | k + 1, c => (nextId c).2 :: genIds k (nextId c).1

/-- Modelled from the spec: the Request Registry operation
`register(id) -> handle` that "fails if id already present — ids must be
unique".  The code performs a plain dict assignment instead
(`registerPending`); this definition exists to contrast the two. -/
def register_spec (pending : Registry) (i : String) (fut : Nat) : Option Registry :=
  if (pending.lookup i).isSome then none else some ((i, fut) :: pending)

/-- Concrete request fixture used by witness theorems: a health request. -/
def healthReq : Json := Json.obj [("id", Json.str "h1"), ("method", Json.str "health")]

/-- Concrete request fixture used by witness theorems: a crash request. -/
def crashReq : Json := Json.obj [("id", Json.str "c1"), ("method", Json.str "crash")]

/-- Concrete request fixture used by witness theorems: a shutdown request. -/
def shutdownReq : Json := Json.obj [("id", Json.str "s1"), ("method", Json.str "shutdown")]

/-- Concrete params fixture used by witness theorems: valid translate params. -/
def translateParams : Json :=
  Json.obj [("text", Json.str "hello"), ("toLang", Json.str "zh"), ("fromLang", Json.str "en")]

/-- Concrete request fixture used by witness theorems: a valid translate request. -/
def translateReq : Json :=
  Json.obj [("id", Json.str "r1"), ("method", Json.str "translate"), ("params", translateParams)]

/-- Concrete request fixture used by witness theorems: a translate request
with no params, so `params.text` fails validation. -/
def badTranslateReq : Json := Json.obj [("id", Json.str "t1"), ("method", Json.str "translate")]

/-! ### Supporting lemmas -/

theorem decAux_eq_digits : ∀ (fuel n : Nat), n ≤ fuel → decAux fuel n = Nat.digits 10 n := by
  intro fuel
  induction fuel with
  | zero =>
    intro n hn
    have : n = 0 := Nat.le_zero.mp hn
    subst this
    simp [decAux]
  | succ f ih =>
    intro n hn
    by_cases h0 : n = 0
    · subst h0; simp [decAux]
    · have hlt : n / 10 < n := Nat.div_lt_self (Nat.pos_of_ne_zero h0) (by norm_num)
      have hle : n / 10 ≤ f := by omega
      rw [decAux, if_neg h0, ih (n / 10) hle]
      exact (Nat.digits_def' (by norm_num) (Nat.pos_of_ne_zero h0)).symm

theorem lookup_eq_none_of_not_mem (i : String) :
    ∀ reg : Registry, i ∉ reg.map Prod.fst → reg.lookup i = none := by
  intro reg
  induction reg with
  | nil => intro _; rfl
  | cons p rest ih =>
    intro hmem
    obtain ⟨k, v⟩ := p
    simp only [List.map_cons, List.mem_cons] at hmem
    push_neg at hmem
    have hb : (i == k) = false := beq_eq_false_iff_ne.mpr hmem.1
    simp only [List.lookup, hb]
    exact ih hmem.2

theorem lookup_popPending (i : String) :
    ∀ reg : Registry, keysNodup reg → (popPending reg i).lookup i = none := by
  intro reg
  induction reg with
  | nil => intro _; rfl
  | cons p rest ih =>
    intro hnd
    obtain ⟨k, v⟩ := p
    have hnd' : keysNodup rest := (List.nodup_cons.mp hnd).2
    have hknotin : k ∉ rest.map Prod.fst := (List.nodup_cons.mp hnd).1
    by_cases hk : k = i
    · subst hk
      rw [popPending, if_pos rfl]
      exact lookup_eq_none_of_not_mem k rest hknotin
    · rw [popPending, if_neg hk]
      have hb : (i == k) = false := beq_eq_false_iff_ne.mpr (fun h => hk h.symm)
      simp only [List.lookup, hb]
      exact ih hnd'

theorem lookup_registerPending_self (i : String) (fut : Nat) :
    ∀ reg : Registry, (registerPending reg i fut).lookup i = some fut := by
  intro reg
  induction reg with
  | nil => simp [registerPending, List.lookup]
  | cons p rest ih =>
    obtain ⟨k, v⟩ := p
    by_cases hk : k = i
    · subst hk
      rw [registerPending, if_pos rfl]
      simp [List.lookup]
    · rw [registerPending, if_neg hk]
      have hb : (i == k) = false := beq_eq_false_iff_ne.mpr (fun h => hk h.symm)
      simp only [List.lookup, hb]
      exact ih

theorem lookup_registerPending_other (i j : String) (fut : Nat) (hij : j ≠ i) :
    ∀ reg : Registry, (registerPending reg i fut).lookup j = reg.lookup j := by
  intro reg
  induction reg with
  | nil =>
    have hb : (j == i) = false := beq_eq_false_iff_ne.mpr hij
    simp [registerPending, List.lookup, hb]
  | cons p rest ih =>
    obtain ⟨k, v⟩ := p
    by_cases hk : k = i
    · subst hk
      rw [registerPending, if_pos rfl]
      have hb : (j == k) = false := beq_eq_false_iff_ne.mpr hij
      simp only [List.lookup, hb]
    · rw [registerPending, if_neg hk]
      by_cases hjk : j = k
      · subst hjk
        have hb : (j == j) = true := beq_self_eq_true j
        simp only [List.lookup, hb]
      · have hb : (j == k) = false := beq_eq_false_iff_ne.mpr hjk
        simp only [List.lookup, hb]
        exact ih

theorem digitChar_injOn (a b : Nat) (ha : a < 10) (hb : b < 10)
    (h : Nat.digitChar a = Nat.digitChar b) : a = b := by
  interval_cases a <;> interval_cases b <;> revert h <;> decide

theorem map_digitChar_inj : ∀ as bs : List Nat, (∀ x ∈ as, x < 10) → (∀ x ∈ bs, x < 10) →
    as.map Nat.digitChar = bs.map Nat.digitChar → as = bs := by
  intro as
  induction as with
  | nil =>
    intro bs _ _ h
    cases bs with
    | nil => rfl
    | cons b bs => simp at h
  | cons a as ih =>
    intro bs ha hb h
    cases bs with
    | nil => simp at h
    | cons b bs =>
      simp only [List.map_cons, List.cons.injEq] at h
      have hab := digitChar_injOn a b (ha a (by simp)) (hb b (by simp)) h.1
      subst hab
      rw [ih bs (fun x hx => ha x (by simp [hx])) (fun x hx => hb x (by simp [hx])) h.2]

theorem digits_mem_lt_ten (n : Nat) : ∀ x ∈ (Nat.digits 10 n).reverse, x < 10 := by
  intro x hx
  exact Nat.digits_lt_base (by norm_num) (List.mem_reverse.mp hx)

theorem natToDec_ne_zero_str (n : Nat) (hn : n ≠ 0) : natToDec n ≠ "0" := by
  intro h
  unfold natToDec at h
  rw [if_neg hn, decAux_eq_digits n n (le_refl n)] at h
  have h0 : ("0" : String) = (['0'] : List Char).asString := rfl
  rw [h0] at h
  have h' := List.asString_inj.mp h
  cases hd : (Nat.digits 10 n).reverse with
  | nil => rw [hd] at h'; simp at h'
  | cons d t =>
    rw [hd] at h'
    cases t with
    | cons d' t' => simp at h'
    | nil =>
      simp only [List.map_cons, List.map_nil, List.cons.injEq, and_true] at h'
      have hd10 : d < 10 := digits_mem_lt_ten n d (by rw [hd]; simp)
      have hd0 : d = 0 := digitChar_injOn d 0 hd10 (by norm_num) (by simpa using h')
      have hdig : Nat.digits 10 n = [0] := by
        have := congrArg List.reverse hd
        simpa [hd0] using this
      have hofd := Nat.ofDigits_digits 10 n
      rw [hdig] at hofd
      simp [Nat.ofDigits] at hofd
      exact hn hofd.symm

theorem natToDec_inj : ∀ m n : Nat, natToDec m = natToDec n → m = n := by
  intro m n h
  by_cases hm : m = 0 <;> by_cases hn : n = 0
  · omega
  · exfalso
    apply natToDec_ne_zero_str n hn
    rw [← h, hm]
    rfl
  · exfalso
    apply natToDec_ne_zero_str m hm
    rw [h, hn]
    rfl
  · unfold natToDec at h
    rw [if_neg hm, if_neg hn,
        decAux_eq_digits m m (le_refl m), decAux_eq_digits n n (le_refl n)] at h
    have h' := List.asString_inj.mp h
    have hmaps := map_digitChar_inj _ _ (digits_mem_lt_ten m) (digits_mem_lt_ten n) h'
    have hdig : Nat.digits 10 m = Nat.digits 10 n := by
      have := congrArg List.reverse hmaps
      simpa using this
    have := congrArg (Nat.ofDigits 10) hdig
    rw [Nat.ofDigits_digits, Nat.ofDigits_digits] at this
    exact_mod_cast this

theorem string_data_append (a b : String) : (a ++ b).data = a.data ++ b.data := by
  cases a
  cases b
  rfl

theorem mkReqId_inj : ∀ m n : Nat, mkReqId m = mkReqId n → m = n := by
  intro m n h
  apply natToDec_inj
  unfold mkReqId at h
  have hd := congrArg String.data h
  rw [string_data_append, string_data_append] at hd
  exact String.ext (List.append_cancel_left hd)

theorem genIds_eq : ∀ (n c : Nat), genIds n c = (List.range n).map (fun k => mkReqId (c + k + 1)) := by
  intro n
  induction n with
  | zero => intro _; rfl
  | succ k ih =>
    intro c
    have hstep : genIds (k + 1) c = mkReqId (c + 1) :: genIds k (c + 1) := rfl
    rw [hstep, ih, List.range_succ_eq_map, List.map_cons, List.map_map]
    have hfun : ((fun j => mkReqId (c + j + 1)) ∘ Nat.succ) = (fun j => mkReqId (c + 1 + j + 1)) := by
      funext j
      simp only [Function.comp]
      congr 1
      omega
    rw [hfun]

theorem genIds_nodup (n c : Nat) : (genIds n c).Nodup := by
  rw [genIds_eq]
  apply List.Nodup.map
  · intro a b hab
    have := mkReqId_inj _ _ hab
    omega
  · exact List.nodup_range _

theorem stepLine_eq_dispatch (l : RawLine) (req : Json) (m : String) (params : Json) (t : Nat)
    (hblank : pyStrip l.raw ≠ "") (hparse : l.parse = some req)
    (hmethod : methodOf req = some m) (hparams : paramsOf req = some params) :
    stepLine l t =
      (if m = "health" then
        ⟨[handle_health (normId req)], [⟨"info", "request: " ++ m, normId req⟩], none⟩
      else if m = "translate" then
        ⟨[handle_translate (normId req) params t],
         [⟨"info", "request: " ++ m, normId req⟩], none⟩
      else if m = "crash" then
        ⟨[], [⟨"info", "request: " ++ m, normId req⟩, ⟨"error", "crash requested", normId req⟩],
         some 2⟩
      else if m = "shutdown" then
        ⟨[Json.obj [("id", jid (normId req)), ("result", Json.obj [("ok", Json.bool true)])]],
         [⟨"info", "request: " ++ m, normId req⟩, ⟨"info", "shutdown requested", normId req⟩],
         some 0⟩
      else
        ⟨[error_response (normId req) "method_not_found" ("unknown method: " ++ m)],
         [⟨"info", "request: " ++ m, normId req⟩], none⟩) := by
  unfold stepLine
  rw [if_neg hblank, hparse]
  dsimp only
  rw [hmethod]
  dsimp only
  rw [hparams]

theorem handle_translate_success (rid : Option String) (params : Json) (t : Nat)
    (text lang : String)
    (htext : nonEmptyStr (jget params "text") = some text)
    (hlang : nonEmptyStr (jget params "toLang") = some lang) :
    handle_translate rid params t =
      Json.obj [("id", jid rid),
                ("result", Json.obj
                  [("translatedText", Json.str ("[" ++ lang ++ "] " ++ text)),
                   ("detectedLang", (jget params "fromLang").getD Json.null),
                   ("engine", Json.str "mock"),
                   ("timingMs", Json.num (Int.ofNat t))])] := by
  unfold handle_translate
  rw [htext]
  dsimp only
  rw [hlang]

theorem handle_translate_fail (rid : Option String) (params : Json) (t : Nat)
    (h : nonEmptyStr (jget params "text") = none ∨ nonEmptyStr (jget params "toLang") = none) :
    ∃ msg, handle_translate rid params t = error_response rid "invalid_params" msg := by
  unfold handle_translate
  cases htext : nonEmptyStr (jget params "text") with
  | none => exact ⟨_, rfl⟩
  | some text =>
    have hlang : nonEmptyStr (jget params "toLang") = none := by
      rcases h with h | h
      · rw [htext] at h; cases h
      · exact h
    dsimp only
    rw [hlang]
    exact ⟨_, rfl⟩

theorem jget_handle_translate_id (rid : Option String) (params : Json) (t : Nat) :
    jget (handle_translate rid params t) "id" = some (jid rid) := by
  unfold handle_translate
  cases nonEmptyStr (jget params "text") with
  | none => rfl
  | some text =>
    dsimp only
    cases nonEmptyStr (jget params "toLang") with
    | none => rfl
    | some lang => rfl

theorem runService_cons_running (l : RawLine) (rest : List RawLine) (t : Nat)
    (h : (stepLine l t).exit = none) :
    runService (l :: rest) t =
      ((stepLine l t).responses ++ (runService rest t).1,
       (stepLine l t).logs ++ (runService rest t).2.1,
       (runService rest t).2.2) := by
  simp only [runService]
  rw [h]

theorem runService_cons_exit (l : RawLine) (rest : List RawLine) (t : Nat) (c : Nat)
    (h : (stepLine l t).exit = some c) :
    runService (l :: rest) t = ((stepLine l t).responses, (stepLine l t).logs, c) := by
  simp only [runService]
  rw [h]

theorem jget_error_response_error (rid : Option String) (c msg : String) :
    jget (error_response rid c msg) "error" =
      some (Json.obj [("code", Json.str c), ("message", Json.str msg)]) := rfl

theorem jget_error_response_result (rid : Option String) (c msg : String) :
    jget (error_response rid c msg) "result" = none := rfl

theorem jget_error_response_id (rid : Option String) (c msg : String) :
    jget (error_response rid c msg) "id" = some (jid rid) := rfl

theorem jget_obj_id_result_error (a b : Json) :
    jget (Json.obj [("id", a), ("result", b)]) "error" = none := rfl

theorem jget_handle_health_error (rid : Option String) :
    jget (handle_health rid) "error" = none := rfl

theorem jget_handle_translate_error_code (rid : Option String) (params : Json) (t : Nat)
    (e : Json) (he : jget (handle_translate rid params t) "error" = some e) :
    jget e "code" = some (Json.str "invalid_params") := by
  cases htext : nonEmptyStr (jget params "text") with
  | none =>
    obtain ⟨msg, hm⟩ := handle_translate_fail rid params t (Or.inl htext)
    rw [hm, jget_error_response_error] at he
    obtain rfl := Option.some.inj he
    rfl
  | some text =>
    cases hlang : nonEmptyStr (jget params "toLang") with
    | none =>
      obtain ⟨msg, hm⟩ := handle_translate_fail rid params t (Or.inr hlang)
      rw [hm, jget_error_response_error] at he
      obtain rfl := Option.some.inj he
      rfl
    | some lang =>
      rw [handle_translate_success rid params t text lang htext hlang,
          jget_obj_id_result_error] at he
      exact Option.noConfusion he

/-! ### The claims -/

/-- Claim C1: for every translate request whose params contain both a
non-empty string `text` and a non-empty string `toLang`, the service emits
a response whose result's `translatedText` equals
`"[" ++ toLang ++ "] " ++ text`; if either is missing, not a string, or
empty, it instead emits an error response with code `invalid_params` and
no result. -/
theorem translate_contract (l : RawLine) (req params : Json) (t : Nat)
    (hblank : pyStrip l.raw ≠ "") (hparse : l.parse = some req)
    (hmethod : methodOf req = some "translate") (hparams : paramsOf req = some params) :
    (∀ text lang, nonEmptyStr (jget params "text") = some text →
        nonEmptyStr (jget params "toLang") = some lang →
        ∃ res, (stepLine l t).responses =
            [Json.obj [("id", jid (normId req)), ("result", res)]] ∧
          jget res "translatedText" = some (Json.str ("[" ++ lang ++ "] " ++ text))) ∧
    ((nonEmptyStr (jget params "text") = none ∨ nonEmptyStr (jget params "toLang") = none) →
        ∃ msg, (stepLine l t).responses = [error_response (normId req) "invalid_params" msg] ∧
          jget (error_response (normId req) "invalid_params" msg) "result" = none ∧
          jget (error_response (normId req) "invalid_params" msg) "error" =
            some (Json.obj [("code", Json.str "invalid_params"), ("message", Json.str msg)])) := by
  have hstep : (stepLine l t).responses = [handle_translate (normId req) params t] := by
    rw [stepLine_eq_dispatch l req "translate" params t hblank hparse hmethod hparams]
    rw [if_neg (show ¬("translate" = "health") by decide), if_pos rfl]
  constructor
  · intro text lang htext hlang
    refine ⟨Json.obj
        [("translatedText", Json.str ("[" ++ lang ++ "] " ++ text)),
         ("detectedLang", (jget params "fromLang").getD Json.null),
         ("engine", Json.str "mock"),
         ("timingMs", Json.num (Int.ofNat t))], ?_, rfl⟩
    rw [hstep, handle_translate_success (normId req) params t text lang htext hlang]
  · intro hbad
    obtain ⟨msg, hmsg⟩ := handle_translate_fail (normId req) params t hbad
    exact ⟨msg, by rw [hstep, hmsg], jget_error_response_result _ _ _,
           jget_error_response_error _ _ _⟩

/-- Witness for C1: the fixture translate request evaluates to the tagged
translation, and a params-less translate request evaluates to
invalid_params. -/
theorem translate_contract_witness :
    (∃ res, (stepLine ⟨"w", some translateReq⟩ 0).responses =
        [Json.obj [("id", jid (normId translateReq)), ("result", res)]] ∧
      jget res "translatedText" = some (Json.str ("[" ++ "zh" ++ "] " ++ "hello"))) ∧
    (∃ msg, (stepLine ⟨"w", some badTranslateReq⟩ 0).responses =
        [error_response (normId badTranslateReq) "invalid_params" msg] ∧
      jget (error_response (normId badTranslateReq) "invalid_params" msg) "result" = none ∧
      jget (error_response (normId badTranslateReq) "invalid_params" msg) "error" =
        some (Json.obj [("code", Json.str "invalid_params"), ("message", Json.str msg)])) :=
  ⟨(translate_contract ⟨"w", some translateReq⟩ translateReq translateParams 0
      (by decide) rfl rfl rfl).1 "hello" "zh" rfl rfl,
   (translate_contract ⟨"w", some badTranslateReq⟩ badTranslateReq (Json.obj []) 0
      (by decide) rfl rfl rfl).2 (Or.inl rfl)⟩

/-- Claim C3: a non-blank stdin line that fails JSON parsing yields the
response with null id and error code `invalid_json`, the service does not
exit, and the subsequent lines are still processed. -/
theorem invalid_json_keeps_running (raw : String) (t : Nat) (rest : List RawLine)
    (hblank : pyStrip raw ≠ "") :
    (stepLine ⟨raw, none⟩ t).responses =
      [error_response none "invalid_json" "failed to parse json"] ∧
    jget (error_response none "invalid_json" "failed to parse json") "id" = some Json.null ∧
    jget (error_response none "invalid_json" "failed to parse json") "error" =
      some (Json.obj [("code", Json.str "invalid_json"),
                      ("message", Json.str "failed to parse json")]) ∧
    (stepLine ⟨raw, none⟩ t).exit = none ∧
    runService (⟨raw, none⟩ :: rest) t =
      (error_response none "invalid_json" "failed to parse json" :: (runService rest t).1,
       LogEntry.mk "warn" "invalid json" none :: (runService rest t).2.1,
       (runService rest t).2.2) := by
  have hstep : stepLine ⟨raw, none⟩ t =
      ⟨[error_response none "invalid_json" "failed to parse json"],
       [⟨"warn", "invalid json", none⟩], none⟩ := by
    unfold stepLine
    dsimp only
    rw [if_neg hblank]
  refine ⟨by rw [hstep], rfl, rfl, by rw [hstep], ?_⟩
  rw [runService_cons_running _ rest t (by rw [hstep]), hstep]
  rfl

/-- Witness for C3: a lone left-brace line produces the invalid_json
response and the service goes on to report end of input with status 0. -/
theorem invalid_json_keeps_running_witness :
    (stepLine ⟨"\x7b", none⟩ 0).responses =
      [error_response none "invalid_json" "failed to parse json"] ∧
    jget (error_response none "invalid_json" "failed to parse json") "id" = some Json.null ∧
    jget (error_response none "invalid_json" "failed to parse json") "error" =
      some (Json.obj [("code", Json.str "invalid_json"),
                      ("message", Json.str "failed to parse json")]) ∧
    (stepLine ⟨"\x7b", none⟩ 0).exit = none ∧
    runService [⟨"\x7b", none⟩] 0 =
      (error_response none "invalid_json" "failed to parse json" :: (runService [] 0).1,
       LogEntry.mk "warn" "invalid json" none :: (runService [] 0).2.1,
       (runService [] 0).2.2) :=
  invalid_json_keeps_running "\x7b" 0 [] (by decide)

/-- Claim C8: a line that is empty after stripping produces no response
and no log entry, the service does not exit, and running the service on it
followed by more lines is the same as running it on the remaining lines. -/
theorem blank_line_no_effect (l : RawLine) (t : Nat) (rest : List RawLine)
    (hblank : pyStrip l.raw = "") :
    stepLine l t = ⟨[], [], none⟩ ∧
    runService (l :: rest) t = runService rest t := by
  have h1 : stepLine l t = ⟨[], [], none⟩ := by
    unfold stepLine
    rw [if_pos hblank]
  refine ⟨h1, ?_⟩
  rw [runService_cons_running l rest t (by rw [h1]), h1]
  rfl

/-- Witness for C8: a whitespace-only line is skipped entirely. -/
theorem blank_line_no_effect_witness :
    stepLine ⟨"  ", none⟩ 0 = ⟨[], [], none⟩ ∧
    runService [⟨"  ", none⟩] 0 = runService [] 0 :=
  blank_line_no_effect ⟨"  ", none⟩ 0 [] (by decide)

/-- Claim C10: every successful translate result carries a `detectedLang`
equal to the request's `params.fromLang` (JSON null when absent) and an
`engine` field equal to the constant "mock". -/
theorem translate_detectedLang_engine (rid : Option String) (params : Json) (t : Nat)
    (text lang : String)
    (htext : nonEmptyStr (jget params "text") = some text)
    (hlang : nonEmptyStr (jget params "toLang") = some lang) :
    ∃ res, jget (handle_translate rid params t) "result" = some res ∧
      jget res "detectedLang" = some ((jget params "fromLang").getD Json.null) ∧
      jget res "engine" = some (Json.str "mock") := by
  rw [handle_translate_success rid params t text lang htext hlang]
  exact ⟨_, rfl, rfl, rfl⟩

/-- Witness for C10: with fromLang "en" present, detectedLang is "en" and
engine is "mock". -/
theorem translate_detectedLang_engine_witness :
    ∃ res, jget (handle_translate (some "r1") translateParams 0) "result" = some res ∧
      jget res "detectedLang" = some (Json.str "en") ∧
      jget res "engine" = some (Json.str "mock") :=
  translate_detectedLang_engine (some "r1") translateParams 0 "hello" "zh" rfl rfl

/-- Claim C4: a validated crash request terminates the service with exit
status 2 and no response line; a validated shutdown request emits exactly
one `\x7bid, result: \x7bok: true\x7d\x7d` response and terminates the
service with exit status 0. -/
theorem crash_and_shutdown_exit (l l' : RawLine) (req req' params params' : Json) (t : Nat)
    (rest rest' : List RawLine)
    (hblank : pyStrip l.raw ≠ "") (hparse : l.parse = some req)
    (hmethod : methodOf req = some "crash") (hparams : paramsOf req = some params)
    (hblank' : pyStrip l'.raw ≠ "") (hparse' : l'.parse = some req')
    (hmethod' : methodOf req' = some "shutdown") (hparams' : paramsOf req' = some params') :
    (stepLine l t).responses = [] ∧ (stepLine l t).exit = some 2 ∧
    runService (l :: rest) t = ([], (stepLine l t).logs, 2) ∧
    (stepLine l' t).responses =
      [Json.obj [("id", jid (normId req')), ("result", Json.obj [("ok", Json.bool true)])]] ∧
    (stepLine l' t).exit = some 0 ∧
    runService (l' :: rest') t = ((stepLine l' t).responses, (stepLine l' t).logs, 0) := by
  have hc : stepLine l t =
      ⟨[], [⟨"info", "request: " ++ "crash", normId req⟩,
            ⟨"error", "crash requested", normId req⟩], some 2⟩ := by
    rw [stepLine_eq_dispatch l req "crash" params t hblank hparse hmethod hparams]
    rw [if_neg (show ¬("crash" = "health") by decide),
        if_neg (show ¬("crash" = "translate") by decide), if_pos rfl]
  have hs : stepLine l' t =
      ⟨[Json.obj [("id", jid (normId req')), ("result", Json.obj [("ok", Json.bool true)])]],
       [⟨"info", "request: " ++ "shutdown", normId req'⟩,
        ⟨"info", "shutdown requested", normId req'⟩], some 0⟩ := by
    rw [stepLine_eq_dispatch l' req' "shutdown" params' t hblank' hparse' hmethod' hparams']
    rw [if_neg (show ¬("shutdown" = "health") by decide),
        if_neg (show ¬("shutdown" = "translate") by decide),
        if_neg (show ¬("shutdown" = "crash") by decide), if_pos rfl]
  refine ⟨by rw [hc], by rw [hc], ?_, by rw [hs], by rw [hs], ?_⟩
  · rw [runService_cons_exit l rest t 2 (by rw [hc]), hc]
  · rw [runService_cons_exit l' rest' t 0 (by rw [hs])]

/-- Witness for C4: the fixture crash and shutdown requests exit with
status 2 and 0 respectively. -/
theorem crash_and_shutdown_exit_witness :
    (stepLine ⟨"c", some crashReq⟩ 0).responses = [] ∧
    (stepLine ⟨"c", some crashReq⟩ 0).exit = some 2 ∧
    runService [⟨"c", some crashReq⟩] 0 = ([], (stepLine ⟨"c", some crashReq⟩ 0).logs, 2) ∧
    (stepLine ⟨"s", some shutdownReq⟩ 0).responses =
      [Json.obj [("id", jid (normId shutdownReq)),
                 ("result", Json.obj [("ok", Json.bool true)])]] ∧
    (stepLine ⟨"s", some shutdownReq⟩ 0).exit = some 0 ∧
    runService [⟨"s", some shutdownReq⟩] 0 =
      ((stepLine ⟨"s", some shutdownReq⟩ 0).responses,
       (stepLine ⟨"s", some shutdownReq⟩ 0).logs, 0) :=
  crash_and_shutdown_exit ⟨"c", some crashReq⟩ ⟨"s", some shutdownReq⟩
    crashReq shutdownReq (Json.obj []) (Json.obj []) 0 [] []
    (by decide) rfl rfl rfl (by decide) rfl rfl rfl

/-- Claim C2 counterexample: the crash request parses and passes
validation (its method is the non-empty string "crash" and its params
normalize to the empty object), yet the service emits zero response lines
for it — not exactly one as claimed. -/
theorem one_response_counterexample :
    methodOf crashReq = some "crash" ∧
    paramsOf crashReq = some (Json.obj []) ∧
    pyStrip "z" ≠ "" ∧
    (stepLine ⟨"z", some crashReq⟩ 0).responses.length ≠ 1 :=
  ⟨rfl, rfl, by decide, by decide⟩

/-- Claim C2 (amended): the service emits at most one response line for
any input line; for every parsed line passing validation it emits exactly
one response whose id equals the request's normalized id — except for the
`crash` method, which emits none. -/
theorem at_most_one_response (l : RawLine) (t : Nat) :
    (stepLine l t).responses.length ≤ 1 ∧
    (∀ req m params, pyStrip l.raw ≠ "" → l.parse = some req →
      methodOf req = some m → paramsOf req = some params →
      if m = "crash" then (stepLine l t).responses = []
      else ∃ resp, (stepLine l t).responses = [resp] ∧
        jget resp "id" = some (jid (normId req))) := by
  constructor
  · unfold stepLine
    split
    · simp
    · split
      · simp
      · split
        · simp
        · split
          · simp
          · split
            · simp
            · split
              · simp
              · split
                · simp
                · split
                  · simp
                  · simp
  · intro req m params hblank hparse hmethod hparams
    rw [stepLine_eq_dispatch l req m params t hblank hparse hmethod hparams]
    by_cases h1 : m = "health"
    · subst h1
      rw [if_neg (show ¬("health" = "crash") by decide), if_pos rfl]
      exact ⟨handle_health (normId req), rfl, rfl⟩
    · by_cases h2 : m = "translate"
      · subst h2
        rw [if_neg (show ¬("translate" = "crash") by decide),
            if_neg (show ¬("translate" = "health") by decide), if_pos rfl]
        exact ⟨handle_translate (normId req) params t, rfl,
               jget_handle_translate_id (normId req) params t⟩
      · by_cases h3 : m = "crash"
        · subst h3
          rw [if_pos rfl, if_neg (show ¬("crash" = "health") by decide),
              if_neg (show ¬("crash" = "translate") by decide), if_pos rfl]
        · by_cases h4 : m = "shutdown"
          · subst h4
            rw [if_neg (show ¬("shutdown" = "crash") by decide),
                if_neg (show ¬("shutdown" = "health") by decide),
                if_neg (show ¬("shutdown" = "translate") by decide),
                if_neg (show ¬("shutdown" = "crash") by decide), if_pos rfl]
            exact ⟨Json.obj [("id", jid (normId req)),
                             ("result", Json.obj [("ok", Json.bool true)])], rfl, rfl⟩
          · rw [if_neg h3, if_neg h1, if_neg h2, if_neg h3, if_neg h4]
            exact ⟨error_response (normId req) "method_not_found" ("unknown method: " ++ m),
                   rfl, rfl⟩

/-- Witness for C2: the fixture health request produces exactly one
response carrying its id. -/
theorem at_most_one_response_witness :
    (stepLine ⟨"z", some healthReq⟩ 0).responses.length ≤ 1 ∧
    (∃ resp, (stepLine ⟨"z", some healthReq⟩ 0).responses = [resp] ∧
      jget resp "id" = some (jid (normId healthReq))) := by
  have h := at_most_one_response ⟨"z", some healthReq⟩ 0
  refine ⟨h.1, ?_⟩
  have h2 := h.2 healthReq "health" (Json.obj []) (by decide) rfl rfl rfl
  rw [if_neg (show ¬("health" = "crash") by decide)] at h2
  exact h2

/-- Claim C5: when a send_request call times out, the pending-registry
entry for its id is removed and the caller receives the timeout failure;
any response arriving afterwards for that abandoned id is silently
discarded by the stdout reader (delivered to no future, raising nothing). -/
theorem timeout_abandons_and_discards (pending : Registry) (req_id : String) (msg : Json)
    (hnd : keysNodup pending) (hmsg : jget msg "id" = some (Json.str req_id)) :
    (sendOnTimeout pending req_id).2 = SendResult.timedOut ∧
    (sendOnTimeout pending req_id).1.lookup req_id = none ∧
    readerDispatch (sendOnTimeout pending req_id).1 msg = none := by
  refine ⟨rfl, lookup_popPending req_id pending hnd, ?_⟩
  unfold readerDispatch
  rw [hmsg]
  dsimp only
  by_cases h : req_id = ""
  · rw [if_pos h]
  · rw [if_neg h]
    exact lookup_popPending req_id pending hnd

/-- Witness for C5: with "req-1" pending, a timeout empties its entry and
the late response for "req-1" is dropped by the reader. -/
theorem timeout_abandons_and_discards_witness :
    (sendOnTimeout [("req-1", 0)] "req-1").2 = SendResult.timedOut ∧
    (sendOnTimeout [("req-1", 0)] "req-1").1.lookup "req-1" = none ∧
    readerDispatch (sendOnTimeout [("req-1", 0)] "req-1").1
      (Json.obj [("id", Json.str "req-1"),
                 ("result", Json.obj [("translatedText", Json.str "[en] slow")])]) = none :=
  timeout_abandons_and_discards [("req-1", 0)] "req-1"
    (Json.obj [("id", Json.str "req-1"),
               ("result", Json.obj [("translatedText", Json.str "[en] slow")])])
    (by simp [keysNodup]) rfl

/-- Claim C6 counterexample: registering an id that is already pending
does not fail — the client's dict assignment replaces the existing entry
(future 1 overwrites future 0, and the two entries do not coexist),
whereas the spec-modelled register refuses the duplicate. -/
theorem register_duplicate_counterexample :
    registerPending (registerPending [] "req-1" 0) "req-1" 1 = [("req-1", 1)] ∧
    register_spec (registerPending [] "req-1" 0) "req-1" 1 = none :=
  ⟨rfl, rfl⟩

/-- Claim C6 (amended): a second register of an id already present
replaces the existing pending entry — the id maps to the new future and
every other id's entry is unchanged. -/
theorem register_duplicate_replaces (pending : Registry) (i j : String) (fut : Nat)
    (hij : j ≠ i) :
    (registerPending pending i fut).lookup i = some fut ∧
    (registerPending pending i fut).lookup j = pending.lookup j :=
  ⟨lookup_registerPending_self i fut pending,
   lookup_registerPending_other i j fut hij pending⟩

/-- Witness for C6 (amended): re-registering "req-1" maps it to the new
future 7 and leaves "req-2" untouched. -/
theorem register_duplicate_replaces_witness :
    (registerPending [("req-1", 0), ("req-2", 5)] "req-1" 7).lookup "req-1" = some 7 ∧
    (registerPending [("req-1", 0), ("req-2", 5)] "req-1" 7).lookup "req-2" =
      ([("req-1", 0), ("req-2", 5)] : Registry).lookup "req-2" :=
  register_duplicate_replaces [("req-1", 0), ("req-2", 5)] "req-1" "req-2" 7 (by decide)

/-- Claim C7 counterexample: the health capabilities list is exactly
["health", "translate", "shutdown"], which omits "crash" even though a
validated crash request is dispatched (it terminates the service with
status 2 rather than being answered with method_not_found) — so a method
name is not in the list if and only if dispatch yields method_not_found. -/
theorem capabilities_counterexample :
    jget (handle_health none) "result" =
      some (Json.obj [("version", Json.str "0.0.1-mock"), ("build", Json.str "dev"),
        ("capabilities",
         Json.arr [Json.str "health", Json.str "translate", Json.str "shutdown"])]) ∧
    "crash" ∉ (["health", "translate", "shutdown"] : List String) ∧
    (stepLine ⟨"z", some crashReq⟩ 0).responses = [] ∧
    (stepLine ⟨"z", some crashReq⟩ 0).exit = some 2 :=
  ⟨rfl, by decide, rfl, rfl⟩

/-- Claim C7 (amended): a validated health request returns a result
containing version, build and the capabilities list
["health", "translate", "shutdown"]; every method named in that list is
dispatched without a method_not_found error (though the converse fails:
crash is also dispatched yet is not listed). -/
theorem health_capabilities (l : RawLine) (req params : Json) (t : Nat)
    (hblank : pyStrip l.raw ≠ "") (hparse : l.parse = some req)
    (hmethod : methodOf req = some "health") (hparams : paramsOf req = some params) :
    (stepLine l t).responses = [handle_health (normId req)] ∧
    jget (handle_health (normId req)) "result" =
      some (Json.obj [("version", Json.str "0.0.1-mock"), ("build", Json.str "dev"),
        ("capabilities",
         Json.arr [Json.str "health", Json.str "translate", Json.str "shutdown"])]) ∧
    (∀ m, m ∈ (["health", "translate", "shutdown"] : List String) →
      ∀ (l' : RawLine) (req' params' : Json), pyStrip l'.raw ≠ "" → l'.parse = some req' →
        methodOf req' = some m → paramsOf req' = some params' →
        ∀ resp ∈ (stepLine l' t).responses, ∀ e, jget resp "error" = some e →
          jget e "code" ≠ some (Json.str "method_not_found")) := by
  refine ⟨?_, rfl, ?_⟩
  · rw [stepLine_eq_dispatch l req "health" params t hblank hparse hmethod hparams,
        if_pos rfl]
  · intro m hm l' req' params' hblank' hparse' hmethod' hparams' resp hresp e he
    simp only [List.mem_cons, List.not_mem_nil, or_false] at hm
    rcases hm with rfl | rfl | rfl
    · rw [stepLine_eq_dispatch l' req' "health" params' t hblank' hparse' hmethod' hparams',
          if_pos rfl] at hresp
      simp only [List.mem_singleton] at hresp
      subst hresp
      rw [jget_handle_health_error] at he
      exact Option.noConfusion he
    · rw [stepLine_eq_dispatch l' req' "translate" params' t hblank' hparse' hmethod' hparams',
          if_neg (show ¬("translate" = "health") by decide), if_pos rfl] at hresp
      simp only [List.mem_singleton] at hresp
      subst hresp
      have hc := jget_handle_translate_error_code (normId req') params' t e he
      rw [hc]
      intro hbad
      have hinj := Option.some.inj hbad
      injection hinj with hstr
      exact absurd hstr (by decide)
    · rw [stepLine_eq_dispatch l' req' "shutdown" params' t hblank' hparse' hmethod' hparams',
          if_neg (show ¬("shutdown" = "health") by decide),
          if_neg (show ¬("shutdown" = "translate") by decide),
          if_neg (show ¬("shutdown" = "crash") by decide), if_pos rfl] at hresp
      simp only [List.mem_singleton] at hresp
      subst hresp
      rw [jget_obj_id_result_error] at he
      exact Option.noConfusion he

/-- Witness for C7 (amended): the fixture health request yields the fixed
capabilities result, and a listed method ("translate", exercised with
invalid params) is never answered with method_not_found. -/
theorem health_capabilities_witness :
    (stepLine ⟨"h", some healthReq⟩ 0).responses = [handle_health (some "h1")] ∧
    jget (Json.obj [("code", Json.str "invalid_params"),
        ("message", Json.str "params.text must be a non-empty string")]) "code" ≠
      some (Json.str "method_not_found") := by
  have h := health_capabilities ⟨"h", some healthReq⟩ healthReq (Json.obj []) 0
    (by decide) rfl rfl rfl
  refine ⟨h.1, ?_⟩
  exact h.2.2 "translate" (by simp) ⟨"t", some badTranslateReq⟩ badTranslateReq
    (Json.obj []) (by decide) rfl rfl rfl
    (error_response (some "t1") "invalid_params" "params.text must be a non-empty string")
    (List.mem_singleton.mpr rfl)
    (Json.obj [("code", Json.str "invalid_params"),
               ("message", Json.str "params.text must be a non-empty string")])
    rfl

/-- Claim C9: within one client session the id generator produces
"req-1", "req-2", ... from a strictly increasing counter, the ids of a
session are pairwise distinct, and the id format is injective, so no two
in-flight requests can share a registry key. -/
theorem id_generator_distinct (n : Nat) :
    (∀ c, (nextId c).1 = c + 1) ∧
    genIds n 0 = (List.range n).map (fun k => mkReqId (k + 1)) ∧
    (genIds n 0).Nodup ∧
    (∀ a b : Nat, mkReqId a = mkReqId b → a = b) := by
  refine ⟨fun c => rfl, ?_, genIds_nodup n 0, mkReqId_inj⟩
  rw [genIds_eq]
  congr 1
  funext k
  congr 1
  omega

/-- Witness for C9: the first three generated ids are req-1, req-2, req-3
and they are pairwise distinct. -/
theorem id_generator_distinct_witness :
    genIds 3 0 = ["req-1", "req-2", "req-3"] ∧ (genIds 3 0).Nodup := by
  have h := id_generator_distinct 3
  exact ⟨rfl, h.2.2.1⟩
